import Mathlib

/-!
Verification of the Post Collection Controller of the `dinamo` repository
(`PostsTable` in `src/components/PostsTable.tsx`, `PostForm` in
`src/components/PostForm.tsx`), as a shallow embedding in Lean 4.

The controller owns an in-memory list of posts and reconciles it against a
mock REST backend (jsonplaceholder).  Remote calls are modelled by passing
their outcome (`Except ApiError α`) as an explicit argument to each handler;
a handler returns the successor state together with the list of
notifications it fired, in order.
-/

namespace Dinamo

/-- A post record, from `src/types/post` as used by `PostsTable`:
`id`, `userId` are numbers, `title`, `body` strings. -/
structure Post where
  id : Int
  userId : Int
  title : String
  body : String
deriving DecidableEq, Repr

/-- The form's submitted values (`PostFormData`): the editable subset
`{title, body}` of a post. -/
structure PostFormData where
  title : String
  body : String
deriving DecidableEq, Repr

/-- The shape of a failed remote call, as the handlers probe it:
`axiosResponse status` is an `AxiosError` whose `response` is present and
carries an HTTP status; `axiosNoResponse` is an `AxiosError` with a
`request` but no `response` (network/timeout); `nonAxios` is any error not
matching the recognized axios shape. -/
inductive ApiError where
  | axiosResponse (status : Nat)
  | axiosNoResponse
  | nonAxios
deriving DecidableEq, Repr

/-- Notification severities accepted by the antd sink
(`NotificationArgsProps.type`). -/
inductive NotifType where
  | success
  | error
  | warning
  | info
deriving DecidableEq, Repr

/-- One fired notification: `showNotification(type, message, description)`
in `PostsTable` (lines 73-80). -/
structure Notification where
  type : NotifType
  message : String
  description : String
deriving DecidableEq, Repr

/-- The component state owned by `PostsTable`: `posts`, `loading`,
`isModalOpen`, `editingPost`, and the antd form instance's current field
values (`form`), which `handleEdit` seeds and `handleModalCancel` resets. -/
structure ControllerState where
  posts : List Post
  loading : Bool
  isModalOpen : Bool
  editingPost : Option Post
  formFields : PostFormData
deriving DecidableEq, Repr

/-- `handleApiError` (PostsTable lines 82-106): derives a human-readable
message from the error's shape — a `switch` on `response.status` when a
response is present, the no-response case, and a default — and fires an
error notification titled `Error <context>`. -/
def handleApiError (error : ApiError) (context : String) : Notification :=
  let errorMessage :=
    match error with
    | .axiosResponse status =>
        if status = 404 then "The requested resource was not found"
        else if status = 400 then "Invalid request data"
        else if status = 500 then "Server error occurred"
        else "Error: " ++ toString status
    | .axiosNoResponse => "No response received from server"
    | .nonAxios => "An unexpected error occurred"
  ⟨.error, "Error " ++ context, errorMessage⟩

/-- The filter applied by `handleDelete` (lines 222-226): keep every post
whose `id` differs from the deleted one. -/
def removePost (postId : Int) (posts : List Post) : List Post :=
  posts.filter (fun post => post.id ≠ postId)

/-- The condition of `handleDelete`'s inner catch (lines 216-217): the error
is an `AxiosError` whose response status is 404 or 500.  Such errors are
swallowed (delete simulates success); all others are rethrown. -/
def deleteSimulated (error : ApiError) : Bool :=
  match error with
  | .axiosResponse status => status = 404 || status = 500
  | _ => false

/-- `handleDelete` (lines 208-238).  The inner try/catch swallows simulated
failures; the surviving outcome either removes the record and fires the
success notification, or reaches the outer catch (`handleApiError`) leaving
`posts` unchanged.  `loading` is reset in `finally`. -/
def handleDelete (postId : Int) (remote : Except ApiError Unit)
    (s : ControllerState) : ControllerState × List Notification :=
  let attempt : Except ApiError Unit :=
    match remote with
    | .ok _ => .ok ()
    | .error e => if deleteSimulated e then .ok () else .error e
  match attempt with
  | .ok _ =>
      ({ s with posts := removePost postId s.posts, loading := false },
       [⟨.success, "Post Deleted",
         "The post has been successfully deleted (simulated)"⟩])
  | .error e =>
      ({ s with loading := false }, [handleApiError e "deleting post"])

/-- `handleModalCancel` (lines 202-206): resets the form fields, closes the
modal and clears the editing target. -/
def handleModalCancel (s : ControllerState) : ControllerState :=
  { s with formFields := ⟨"", ""⟩, isModalOpen := false, editingPost := none }

/-- `handleEdit` (lines 108-115): selects the record as the editing target,
seeds the form fields from its `title`/`body` and opens the modal. -/
def handleEdit (post : Post) (s : ControllerState) : ControllerState :=
  { s with editingPost := some post,
           formFields := ⟨post.title, post.body⟩,
           isModalOpen := true }

/-- The local merge applied by update (lines 131-134 and 152-155):
`{...editingPost, ...values}` — `id` and `userId` come from the original
target, `title` and `body` from the submitted draft. -/
def mergeDraft (editingPost : Post) (values : PostFormData) : Post :=
  { editingPost with title := values.title, body := values.body }

/-- The `setPosts` mapping of update (lines 136-142 and 157-163): every post
whose `id` equals the target's `id` is replaced by the merged record, all
other posts are kept in place. -/
def applyUpdate (editingPost : Post) (values : PostFormData)
    (posts : List Post) : List Post :=
  posts.map (fun post =>
    if post.id = editingPost.id then mergeDraft editingPost values else post)

/-- The condition of `handleSubmit`'s inner catch in the update branch
(line 151): the error is an `AxiosError` with response status 500.  Such a
failure is treated as a simulated success; anything else is rethrown. -/
def updateSimulated (error : ApiError) : Bool :=
  match error with
  | .axiosResponse status => status = 500
  | _ => false

/-- The POST body sent by create (lines 176-182): `{...values, userId: 1}` —
the draft with the author fixed to user 1. -/
structure CreateRequestBody where
  title : String
  body : String
  userId : Int
deriving DecidableEq, Repr

/-- The body of the create POST, built from the submitted values. -/
def createRequestBody (values : PostFormData) : CreateRequestBody :=
  { title := values.title, body := values.body, userId := 1 }

/-- `handleSubmit` (lines 117-200).  With an editing target it runs the
update branch: on success, or on a failure classified by `updateSimulated`,
it applies `applyUpdate`, fires a success notification (with different
wording in the two cases) and calls `handleModalCancel`; any other failure
reaches the outer catch (`handleApiError`) and mutates nothing.  Without a
target it runs the create branch: on success the server-returned record is
prepended to `posts`, a success notification fires and the modal closes; on
failure the outer catch fires an error notification and `posts` is
unchanged.  `loading` is reset in `finally`. -/
def handleSubmit (values : PostFormData) (remote : Except ApiError Post)
    (s : ControllerState) : ControllerState × List Notification :=
  match s.editingPost with
  | some editingPost =>
      let attempt : Except ApiError Unit :=
        match remote with
        | .ok _ => .ok ()
        | .error e => if updateSimulated e then .ok () else .error e
      let merged := { s with posts := applyUpdate editingPost values s.posts }
      match attempt with
      | .ok _ =>
          let description :=
            match remote with
            | .ok _ => "Your post has been successfully updated (simulated)"
            | .error _ => "Update simulated successfully (JSONPlaceholder API)"
          ({ handleModalCancel merged with loading := false },
           [⟨.success, "Post Updated", description⟩])
      | .error e =>
          ({ s with loading := false }, [handleApiError e "updating post"])
  | none =>
      match remote with
      | .ok created =>
          ({ handleModalCancel { s with posts := created :: s.posts } with
              loading := false },
           [⟨.success, "Post Created",
             "Your new post has been successfully created"⟩])
      | .error e =>
          ({ s with loading := false }, [handleApiError e "creating post"])

/-- `fetchPosts` (lines 33-60): on success the response array replaces
`posts` wholesale (the JS guard `response.data && Array.isArray(...)` always
holds in the typed model, where the payload is an array) and, when an
initial seed-error was present, a success notification fires; on failure the
outer catch (`handleApiError`) fires and `posts` is unchanged.  `loading` is
reset in `finally`. -/
def fetchPosts (remote : Except ApiError (List Post))
    (initialError : Option String) (s : ControllerState) :
    ControllerState × List Notification :=
  match remote with
  | .ok data =>
      ({ s with posts := data, loading := false },
       if initialError.isSome then
         [⟨.success, "Data Loaded", "Successfully retrieved posts"⟩]
       else [])
  | .error e =>
      ({ s with loading := false }, [handleApiError e "fetching posts"])

/-- The antd/async-validator `required` rule on a string field, as declared
in `PostForm` (lines 27-41): `required: true` fails on an empty value, and
only when the optional `whitespace` flag is set does it also fail on a
whitespace-only value.  The source sets no `whitespace` flag on either
field. -/
def requiredRuleFails (whitespace : Bool) (value : String) : Bool :=
  value = "" || (whitespace && value.trim = "")

/-- Whether the submitted values pass both declared rules of `PostForm`:
`title` required, `body` required, neither with the `whitespace` option. -/
def postFormValid (values : PostFormData) : Bool :=
  !requiredRuleFails false values.title && !requiredRuleFails false values.body

/-- The warning fired by `onFinishFailed` (PostsTable lines 332-338). -/
def validationWarning : Notification :=
  ⟨.warning, "Validation Error", "Please check the form fields and try again"⟩

/-- Submitting the form: antd validates the current field values against the
declared rules; on success it calls `onFinish` (`handleSubmit`), on failure
`onFinishFailed`, which only fires the warning — the modal stays open and no
state is touched.  The returned boolean records whether the controller's
create/update path was invoked. -/
def formOnSubmit (remote : Except ApiError Post) (s : ControllerState) :
    ControllerState × List Notification × Bool :=
  if postFormValid s.formFields then
    let r := handleSubmit s.formFields remote s
    (r.1, r.2, true)
  else
    (s, [validationWarning], false)

/-- One user-visible operation on the controller, with the outcome of its
remote call (if any) as data: initial load, opening the modal for create,
selecting a record for edit, typing into the form, cancelling, submitting
the form, and deleting a record. -/
inductive Op where
  | load (remote : Except ApiError (List Post)) (initialError : Option String)
  | openCreate
  | edit (post : Post)
  | typeFields (values : PostFormData)
  | cancel
  | submit (remote : Except ApiError Post)
  | delete (postId : Int) (remote : Except ApiError Unit)

/-- The state transition of a single operation, with the notifications it
fires. -/
def stepOp (op : Op) (s : ControllerState) : ControllerState × List Notification :=
  match op with
  | .load remote initialError => fetchPosts remote initialError s
  | .openCreate => ({ s with isModalOpen := true }, [])
  | .edit post => (handleEdit post s, [])
  | .typeFields values => ({ s with formFields := values }, [])
  | .cancel => (handleModalCancel s, [])
  | .submit remote =>
      let r := formOnSubmit remote s
      (r.1, r.2.1)
  | .delete postId remote => handleDelete postId remote s

/-- Run a sequence of operations from a starting state. -/
def runOps : List Op → ControllerState → ControllerState
  | [], s => s
  | op :: rest, s => runOps rest (stepOp op s).1

/-- Side condition under which one operation preserves id-uniqueness: a
successful load must return a collection with pairwise-distinct ids, and a
successful create (a submit that validates with no editing target) must
return a server-assigned id not already in `posts`.  The code itself checks
neither. -/
def opSafe (op : Op) (s : ControllerState) : Bool :=
  match op with
  | .load (.ok data) _ => decide (data.map Post.id).Nodup
  | .submit (.ok r) =>
      !(postFormValid s.formFields && s.editingPost.isNone) ||
        decide (r.id ∉ s.posts.map Post.id)
  | _ => true

/-- `opSafe` holding at every step along the run of a sequence. -/
def safeOps : List Op → ControllerState → Bool
  | [], _ => true
  | op :: rest, s => opSafe op s && safeOps rest (stepOp op s).1

/-- The update mapping does not change the list of ids: a matching post is
replaced by a record carrying the same id, all others are untouched. -/
theorem applyUpdate_map_id (p : Post) (v : PostFormData) (l : List Post) :
    (applyUpdate p v l).map Post.id = l.map Post.id := by
  unfold applyUpdate
  rw [List.map_map]
  apply List.map_congr_left
  intro a _
  by_cases h : a.id = p.id
  · simp [Function.comp, h, mergeDraft]
  · simp [Function.comp, h]

/-- The ids surviving a delete form a sublist of the original ids. -/
theorem removePost_map_id_sublist (k : Int) (l : List Post) :
    List.Sublist ((removePost k l).map Post.id) (l.map Post.id) :=
  List.Sublist.map Post.id (List.filter_sublist l)

/-- A single safe operation preserves the uniqueness of ids in `posts`. -/
theorem stepOp_preserves_nodup (op : Op) (s : ControllerState)
    (hsafe : opSafe op s = true) (h : (s.posts.map Post.id).Nodup) :
    ((stepOp op s).1.posts.map Post.id).Nodup := by
  cases op with
  | load remote initialError =>
      cases remote with
      | ok data =>
          simp only [opSafe, decide_eq_true_eq] at hsafe
          simpa [stepOp, fetchPosts] using hsafe
      | error e => simpa [stepOp, fetchPosts] using h
  | openCreate => simpa [stepOp] using h
  | edit post => simpa [stepOp, handleEdit] using h
  | typeFields values => simpa [stepOp] using h
  | cancel => simpa [stepOp, handleModalCancel] using h
  | submit remote =>
      by_cases hv : postFormValid s.formFields
      · cases he : s.editingPost with
        | some p =>
            cases remote with
            | ok r =>
                simpa [stepOp, formOnSubmit, hv, handleSubmit, he,
                       handleModalCancel, applyUpdate_map_id] using h
            | error e =>
                by_cases hu : updateSimulated e
                · simpa [stepOp, formOnSubmit, hv, handleSubmit, he, hu,
                         handleModalCancel, applyUpdate_map_id] using h
                · simpa [stepOp, formOnSubmit, hv, handleSubmit, he, hu] using h
        | none =>
            cases remote with
            | ok r =>
                simp only [opSafe, hv, he, Option.isNone_none, Bool.and_true,
                           Bool.not_true, Bool.false_or,
                           decide_eq_true_eq] at hsafe
                have hposts : (stepOp (Op.submit (.ok r)) s).1.posts = r :: s.posts := by
                  simp [stepOp, formOnSubmit, hv, handleSubmit, he, handleModalCancel]
                rw [hposts, List.map_cons, List.nodup_cons]
                exact ⟨hsafe, h⟩
            | error e =>
                simpa [stepOp, formOnSubmit, hv, handleSubmit, he] using h
      · simpa [stepOp, formOnSubmit, hv] using h
  | delete postId remote =>
      cases remote with
      | ok _ =>
          simp [stepOp, handleDelete]
          exact List.Nodup.sublist (removePost_map_id_sublist postId s.posts) h
      | error e =>
          by_cases hd : deleteSimulated e
          · simp [stepOp, handleDelete, hd]
            exact List.Nodup.sublist (removePost_map_id_sublist postId s.posts) h
          · simpa [stepOp, handleDelete, hd] using h

/-- C1 (counterexample): an update whose PUT fails with HTTP 404 is NOT
classified "simulate success".  With target `{id:7, title:"old", body:"old"}`
and draft `{title:"new", body:"new2"}`, the record keeps `title:"old"`, the
only notification fired is a real error ("The requested resource was not
found"), and the edit session stays open — contradicting the claimed local
merge, success notification and session close. -/
theorem update_404_not_simulated_cex :
    (handleSubmit ⟨"new", "new2"⟩ (Except.error (ApiError.axiosResponse 404))
        ⟨[⟨7, 1, "old", "old"⟩], true, true, some ⟨7, 1, "old", "old"⟩,
         ⟨"new", "new2"⟩⟩) =
      (⟨[⟨7, 1, "old", "old"⟩], false, true, some ⟨7, 1, "old", "old"⟩,
        ⟨"new", "new2"⟩⟩,
       [⟨.error, "Error updating post", "The requested resource was not found"⟩]) := by
  decide

/-- C1 (amended): the update branch classifies only HTTP 500 as "simulate
success".  On a PUT failing with 404 the failure is a real error: `posts` is
unchanged, an error notification "The requested resource was not found"
fires, and the edit session stays open; on a PUT failing with 500 the
identical local merge of the draft is applied, a success notification
indicating simulation fires, and the session closes. -/
theorem update_404_real_error_500_simulated (s : ControllerState) (p : Post)
    (values : PostFormData) (he : s.editingPost = some p) :
    handleSubmit values (Except.error (ApiError.axiosResponse 404)) s =
      ({ s with loading := false },
       [⟨.error, "Error updating post", "The requested resource was not found"⟩]) ∧
    handleSubmit values (Except.error (ApiError.axiosResponse 500)) s =
      ({ s with posts := applyUpdate p values s.posts, loading := false,
                isModalOpen := false, editingPost := none,
                formFields := ⟨"", ""⟩ },
       [⟨.success, "Post Updated",
         "Update simulated successfully (JSONPlaceholder API)"⟩]) := by
  constructor
  · simp [handleSubmit, he, updateSimulated, handleApiError]
  · simp [handleSubmit, he, updateSimulated, handleModalCancel]

/-- Witness for the amended C1 theorem at a concrete state. -/
theorem update_404_real_error_500_simulated_witness :
    handleSubmit ⟨"new", "new2"⟩ (Except.error (ApiError.axiosResponse 404))
        ⟨[⟨7, 1, "old", "old"⟩], true, true, some ⟨7, 1, "old", "old"⟩,
         ⟨"new", "new2"⟩⟩ =
      (⟨[⟨7, 1, "old", "old"⟩], false, true, some ⟨7, 1, "old", "old"⟩,
        ⟨"new", "new2"⟩⟩,
       [⟨.error, "Error updating post", "The requested resource was not found"⟩]) ∧
    handleSubmit ⟨"new", "new2"⟩ (Except.error (ApiError.axiosResponse 500))
        ⟨[⟨7, 1, "old", "old"⟩], true, true, some ⟨7, 1, "old", "old"⟩,
         ⟨"new", "new2"⟩⟩ =
      (⟨[⟨7, 1, "new", "new2"⟩], false, false, none, ⟨"", ""⟩⟩,
       [⟨.success, "Post Updated",
         "Update simulated successfully (JSONPlaceholder API)"⟩]) := by
  have h := update_404_real_error_500_simulated
    ⟨[⟨7, 1, "old", "old"⟩], true, true, some ⟨7, 1, "old", "old"⟩, ⟨"new", "new2"⟩⟩
    ⟨7, 1, "old", "old"⟩ ⟨"new", "new2"⟩ rfl
  exact ⟨h.1, by rw [h.2]; decide⟩

/-- C2 (counterexample): two creates whose server both assigns id 101 (as
the mock backend in fact always does) leave `posts` with two entries of the
same id, although the run starts from a collection (the empty one) with
unique ids. -/
theorem create_duplicate_id_cex :
    ¬ (((runOps
          [Op.submit (Except.ok ⟨101, 1, "T", "B"⟩),
           Op.typeFields ⟨"T", "B"⟩,
           Op.submit (Except.ok ⟨101, 1, "T", "B"⟩)]
          ⟨[], false, true, none, ⟨"T", "B"⟩⟩).posts.map Post.id).Nodup) := by
  decide

/-- C2 (amended): for every sequence of load, create, update and delete
operations starting from a collection with unique ids, `posts` keeps its ids
unique, PROVIDED every successful load returns a collection with unique ids
and every successful create returns a server-assigned id not already
present (`safeOps`); create itself prepends the server record with no
duplicate check, so without the proviso the invariant fails. -/
theorem ops_preserve_unique_ids (ops : List Op) (s : ControllerState)
    (hsafe : safeOps ops s = true) (h0 : (s.posts.map Post.id).Nodup) :
    ((runOps ops s).posts.map Post.id).Nodup := by
  induction ops generalizing s with
  | nil => simpa [runOps] using h0
  | cons op rest ih =>
      simp only [safeOps, Bool.and_eq_true] at hsafe
      simp only [runOps]
      exact ih (stepOp op s).1 hsafe.2 (stepOp_preserves_nodup op s hsafe.1 h0)

/-- Witness for the amended C2 theorem: a create with a fresh id followed by
a delete, run from the empty collection. -/
theorem ops_preserve_unique_ids_witness :
    ((runOps [Op.submit (Except.ok ⟨101, 1, "T", "B"⟩), Op.delete 101 (Except.ok ())]
        ⟨[], false, true, none, ⟨"T", "B"⟩⟩).posts.map Post.id).Nodup :=
  ops_preserve_unique_ids _ _ (by decide) (by decide)

/-- C3: delete removes the record with the given id (keeping, in order,
every record whose id differs) and fires a success notification exactly when
the remote DELETE succeeds or fails with HTTP 404 or 500; any other failure
(no response, HTTP 400, any other status, or an unrecognized error shape)
leaves `posts` unchanged and fires an error notification. -/
theorem handleDelete_classification (postId : Int) (remote : Except ApiError Unit)
    (s : ControllerState) :
    ((remote = .ok () ∨ remote = .error (.axiosResponse 404) ∨
        remote = .error (.axiosResponse 500)) →
      handleDelete postId remote s =
        ({ s with posts := removePost postId s.posts, loading := false },
         [⟨.success, "Post Deleted",
           "The post has been successfully deleted (simulated)"⟩])) ∧
    (∀ e, remote = .error e → e ≠ .axiosResponse 404 → e ≠ .axiosResponse 500 →
      handleDelete postId remote s =
        ({ s with loading := false }, [handleApiError e "deleting post"]) ∧
      (handleApiError e "deleting post").type = .error) := by
  constructor
  · rintro (rfl | rfl | rfl) <;> simp [handleDelete, deleteSimulated]
  · rintro e rfl h404 h500
    have hd : deleteSimulated e = false := by
      cases e with
      | axiosResponse st =>
          have h1 : st ≠ 404 := fun h => h404 (by rw [h])
          have h2 : st ≠ 500 := fun h => h500 (by rw [h])
          simp [deleteSimulated, h1, h2]
      | axiosNoResponse => rfl
      | nonAxios => rfl
    exact ⟨by simp [handleDelete, hd], rfl⟩

/-- Witness for the C3 theorem: both branches evaluated at concrete inputs
(a simulated 404 delete, and a real-error 400 delete). -/
theorem handleDelete_classification_witness :
    handleDelete 7 (Except.error (ApiError.axiosResponse 404))
        ⟨[⟨7, 1, "a", "b"⟩, ⟨8, 1, "c", "d"⟩], true, false, none, ⟨"", ""⟩⟩ =
      (⟨[⟨8, 1, "c", "d"⟩], false, false, none, ⟨"", ""⟩⟩,
       [⟨.success, "Post Deleted",
         "The post has been successfully deleted (simulated)"⟩]) ∧
    handleDelete 7 (Except.error (ApiError.axiosResponse 400))
        ⟨[⟨7, 1, "a", "b"⟩], true, false, none, ⟨"", ""⟩⟩ =
      (⟨[⟨7, 1, "a", "b"⟩], false, false, none, ⟨"", ""⟩⟩,
       [⟨.error, "Error deleting post", "Invalid request data"⟩]) := by
  constructor
  · have h := (handleDelete_classification 7 (Except.error (ApiError.axiosResponse 404))
      ⟨[⟨7, 1, "a", "b"⟩, ⟨8, 1, "c", "d"⟩], true, false, none, ⟨"", ""⟩⟩).1
      (Or.inr (Or.inl rfl))
    rw [h]; decide
  · have h := (handleDelete_classification 7 (Except.error (ApiError.axiosResponse 400))
      ⟨[⟨7, 1, "a", "b"⟩], true, false, none, ⟨"", ""⟩⟩).2
      (ApiError.axiosResponse 400) rfl (by decide) (by decide)
    rw [h.1]; decide

/-- C4: the local update merge replaces exactly the positions holding the
target's id — the merged record takes `id` and `userId` from the original
target and `title`/`body` from the draft — keeps the length and every other
position untouched, and is the identity when no record carries the target's
id. -/
theorem applyUpdate_pointwise (p : Post) (values : PostFormData)
    (posts : List Post) :
    (applyUpdate p values posts).length = posts.length ∧
    (mergeDraft p values).id = p.id ∧
    (mergeDraft p values).userId = p.userId ∧
    (mergeDraft p values).title = values.title ∧
    (mergeDraft p values).body = values.body ∧
    (∀ (i : Nat) (h1 : i < posts.length)
        (h2 : i < (applyUpdate p values posts).length),
      ((posts.get ⟨i, h1⟩).id = p.id →
        (applyUpdate p values posts).get ⟨i, h2⟩ = mergeDraft p values) ∧
      ((posts.get ⟨i, h1⟩).id ≠ p.id →
        (applyUpdate p values posts).get ⟨i, h2⟩ = posts.get ⟨i, h1⟩)) ∧
    ((∀ q ∈ posts, q.id ≠ p.id) → applyUpdate p values posts = posts) := by
  refine ⟨by simp [applyUpdate], rfl, rfl, rfl, rfl, ?_, ?_⟩
  · intro i h1 h2
    constructor
    · intro hid
      simp only [List.get_eq_getElem] at hid
      simp [applyUpdate, List.get_eq_getElem, List.getElem_map, hid]
    · intro hid
      simp only [List.get_eq_getElem] at hid
      simp [applyUpdate, List.get_eq_getElem, List.getElem_map, hid]
  · intro hnone
    conv_rhs => rw [← List.map_id posts]
    exact List.map_congr_left (fun a ha => by simp [hnone a ha])

/-- Witness for the C4 theorem: in `[{id:1}, {id:2}]` an update targeting
id 2 leaves position 0 untouched and merges the draft at position 1. -/
theorem applyUpdate_pointwise_witness :
    (applyUpdate ⟨2, 5, "t", "b"⟩ ⟨"nt", "nb"⟩
        [⟨1, 4, "x", "y"⟩, ⟨2, 5, "t", "b"⟩]).get ⟨0, by decide⟩ =
      ⟨1, 4, "x", "y"⟩ ∧
    (applyUpdate ⟨2, 5, "t", "b"⟩ ⟨"nt", "nb"⟩
        [⟨1, 4, "x", "y"⟩, ⟨2, 5, "t", "b"⟩]).get ⟨1, by decide⟩ =
      mergeDraft ⟨2, 5, "t", "b"⟩ ⟨"nt", "nb"⟩ := by
  have h := applyUpdate_pointwise ⟨2, 5, "t", "b"⟩ ⟨"nt", "nb"⟩
    [⟨1, 4, "x", "y"⟩, ⟨2, 5, "t", "b"⟩]
  exact ⟨(h.2.2.2.2.2.1 0 (by decide) (by decide)).2 (by decide),
         (h.2.2.2.2.2.1 1 (by decide) (by decide)).1 (by decide)⟩

/-- C5: create sends the draft with `userId` fixed to 1; on remote success
the server-returned record is prepended to `posts` (it becomes the head,
prior records follow in order), a success notification fires and the edit
session closes; on any remote failure `posts` is unchanged and an error
notification fires. -/
theorem create_behavior (values : PostFormData) (remote : Except ApiError Post)
    (s : ControllerState) (he : s.editingPost = none) :
    (createRequestBody values).userId = 1 ∧
    (createRequestBody values).title = values.title ∧
    (createRequestBody values).body = values.body ∧
    (∀ created, remote = .ok created →
      handleSubmit values remote s =
        ({ s with posts := created :: s.posts, isModalOpen := false,
                  editingPost := none, formFields := ⟨"", ""⟩,
                  loading := false },
         [⟨.success, "Post Created",
           "Your new post has been successfully created"⟩])) ∧
    (∀ e, remote = .error e →
      handleSubmit values remote s =
        ({ s with loading := false }, [handleApiError e "creating post"]) ∧
      (handleApiError e "creating post").type = .error) := by
  refine ⟨rfl, rfl, rfl, ?_, ?_⟩
  · rintro created rfl
    simp [handleSubmit, he, handleModalCancel]
  · rintro e rfl
    exact ⟨by simp [handleSubmit, he], rfl⟩

/-- Witness for the C5 theorem: the spec's create example, prepended in
front of an existing record. -/
theorem create_behavior_witness :
    handleSubmit ⟨"T", "B"⟩ (Except.ok ⟨101, 1, "T", "B"⟩)
        ⟨[⟨1, 1, "a", "b"⟩], true, true, none, ⟨"T", "B"⟩⟩ =
      (⟨[⟨101, 1, "T", "B"⟩, ⟨1, 1, "a", "b"⟩], false, false, none, ⟨"", ""⟩⟩,
       [⟨.success, "Post Created",
         "Your new post has been successfully created"⟩]) := by
  have h := (create_behavior ⟨"T", "B"⟩ (Except.ok ⟨101, 1, "T", "B"⟩)
      ⟨[⟨1, 1, "a", "b"⟩], true, true, none, ⟨"T", "B"⟩⟩ rfl).2.2.2.1
      ⟨101, 1, "T", "B"⟩ rfl
  rw [h]

/-- C6: the real-error handler derives the message exactly from the error's
shape: status 404, 400, 500 give their fixed messages, any other status
gives "Error: <status>", a request with no response gives "No response
received from server", and an unrecognized shape gives "An unexpected error
occurred". -/
theorem handleApiError_messages (context : String) :
    handleApiError (.axiosResponse 404) context =
      ⟨.error, "Error " ++ context, "The requested resource was not found"⟩ ∧
    handleApiError (.axiosResponse 400) context =
      ⟨.error, "Error " ++ context, "Invalid request data"⟩ ∧
    handleApiError (.axiosResponse 500) context =
      ⟨.error, "Error " ++ context, "Server error occurred"⟩ ∧
    (∀ status : Nat, status ≠ 404 → status ≠ 400 → status ≠ 500 →
      handleApiError (.axiosResponse status) context =
        ⟨.error, "Error " ++ context, "Error: " ++ toString status⟩) ∧
    handleApiError .axiosNoResponse context =
      ⟨.error, "Error " ++ context, "No response received from server"⟩ ∧
    handleApiError .nonAxios context =
      ⟨.error, "Error " ++ context, "An unexpected error occurred"⟩ := by
  refine ⟨rfl, rfl, rfl, ?_, rfl, rfl⟩
  intro status h404 h400 h500
  simp [handleApiError, h404, h400, h500]

/-- Witness for the C6 theorem: the 404 message and the generic message for
an unlisted status (418). -/
theorem handleApiError_messages_witness :
    handleApiError (.axiosResponse 404) "fetching posts" =
      ⟨.error, "Error fetching posts", "The requested resource was not found"⟩ ∧
    handleApiError (.axiosResponse 418) "creating post" =
      ⟨.error, "Error creating post", "Error: 418"⟩ := by
  have h1 := (handleApiError_messages "fetching posts").1
  have h2 := (handleApiError_messages "creating post").2.2.2.1 418
    (by decide) (by decide) (by decide)
  exact ⟨by rw [h1]; decide, by rw [h2]; decide⟩

/-- C8: removing an id that no record in `posts` carries is the identity on
the list — same content, same length. -/
theorem removePost_absent_id_noop (postId : Int) (posts : List Post)
    (habs : ∀ q ∈ posts, q.id ≠ postId) :
    removePost postId posts = posts ∧
    (removePost postId posts).length = posts.length := by
  have h : removePost postId posts = posts := by
    unfold removePost
    apply List.filter_eq_self.mpr
    intro a ha
    simpa using habs a ha
  exact ⟨h, by rw [h]⟩

/-- Witness for the C8 theorem: deleting id 99 from a list that holds only
ids 1 and 2. -/
theorem removePost_absent_id_noop_witness :
    removePost 99 [⟨1, 1, "a", "b"⟩, ⟨2, 1, "c", "d"⟩] =
      [⟨1, 1, "a", "b"⟩, ⟨2, 1, "c", "d"⟩] :=
  (removePost_absent_id_noop 99 _ (by decide)).1

/-- C9: when the initial load's GET fails with HTTP 500, `posts` is exactly
what it was before, the only notification is an error with message "Server
error occurred", and the busy flag is false afterwards. -/
theorem fetchPosts_500_error (s : ControllerState)
    (initialError : Option String) :
    fetchPosts (Except.error (ApiError.axiosResponse 500)) initialError s =
      ({ s with loading := false },
       [⟨.error, "Error fetching posts", "Server error occurred"⟩]) ∧
    (fetchPosts (Except.error (ApiError.axiosResponse 500)) initialError s).1.posts
      = s.posts ∧
    (fetchPosts (Except.error (ApiError.axiosResponse 500)) initialError s).1.loading
      = false :=
  ⟨rfl, rfl, rfl⟩

/-- C7 (counterexample): a draft whose title is whitespace-only passes the
declared validation (antd `required` with no `whitespace` option on either
field), so the create path IS invoked, a record is created and a success —
not a warning — notification fires: the submission is not rejected. -/
theorem whitespace_title_passes_validation_cex :
    postFormValid ⟨" ", "x"⟩ = true ∧
    (formOnSubmit (Except.ok ⟨101, 1, " ", "x"⟩)
        ⟨[], false, true, none, ⟨" ", "x"⟩⟩).2.2 = true ∧
    (formOnSubmit (Except.ok ⟨101, 1, " ", "x"⟩)
        ⟨[], false, true, none, ⟨" ", "x"⟩⟩).1.posts = [⟨101, 1, " ", "x"⟩] ∧
    (formOnSubmit (Except.ok ⟨101, 1, " ", "x"⟩)
        ⟨[], false, true, none, ⟨" ", "x"⟩⟩).2.1 =
      [⟨.success, "Post Created",
        "Your new post has been successfully created"⟩] := by
  decide

/-- C7 (amended): a submitted draft whose title or body is the empty string
is rejected: the create/update path is never invoked, the only notification
fired is the "Validation Error" warning, and the state — the open session
and the entered values — is left untouched.  Whitespace-only values,
however, pass the declared rules (antd `required` without the `whitespace`
flag). -/
theorem empty_field_rejected (remote : Except ApiError Post)
    (s : ControllerState)
    (hempty : s.formFields.title = "" ∨ s.formFields.body = "") :
    formOnSubmit remote s = (s, [validationWarning], false) ∧
    validationWarning.type = .warning := by
  have hv : postFormValid s.formFields = false := by
    rcases hempty with h | h <;> simp [postFormValid, requiredRuleFails, h]
  exact ⟨by simp [formOnSubmit, hv], rfl⟩

/-- Witness for the amended C7 theorem: an empty title with the modal open. -/
theorem empty_field_rejected_witness :
    formOnSubmit (Except.ok ⟨101, 1, "", "x"⟩)
        ⟨[], false, true, none, ⟨"", "x"⟩⟩ =
      (⟨[], false, true, none, ⟨"", "x"⟩⟩, [validationWarning], false) :=
  (empty_field_rejected (Except.ok ⟨101, 1, "", "x"⟩)
      ⟨[], false, true, none, ⟨"", "x"⟩⟩ (Or.inl rfl)).1

/-- C10 (counterexample): update does NOT use one wording for true and
simulated successes: a genuinely successful PUT fires "Your post has been
successfully updated (simulated)" while the 500-simulated path fires
"Update simulated successfully (JSONPlaceholder API)" — two distinct
descriptions. -/
theorem update_wording_differs_cex :
    (handleSubmit ⟨"n", "m"⟩ (Except.ok ⟨7, 1, "n", "m"⟩)
        ⟨[⟨7, 1, "o", "o"⟩], true, true, some ⟨7, 1, "o", "o"⟩,
         ⟨"n", "m"⟩⟩).2 =
      [⟨.success, "Post Updated",
        "Your post has been successfully updated (simulated)"⟩] ∧
    (handleSubmit ⟨"n", "m"⟩ (Except.error (ApiError.axiosResponse 500))
        ⟨[⟨7, 1, "o", "o"⟩], true, true, some ⟨7, 1, "o", "o"⟩,
         ⟨"n", "m"⟩⟩).2 =
      [⟨.success, "Post Updated",
        "Update simulated successfully (JSONPlaceholder API)"⟩] ∧
    "Your post has been successfully updated (simulated)" ≠
      "Update simulated successfully (JSONPlaceholder API)" := by
  decide

/-- C10 (amended): every success notification of update and delete mentions
simulation: the update true-success wording and the delete wording — the
latter shared verbatim by delete's true-success, 404 and 500 cases — both
contain "simulated", and so does the distinct wording of update's
500-simulated path. -/
theorem success_wording_simulated (s : ControllerState) (p : Post)
    (values : PostFormData) (r : Post) (k : Int)
    (he : s.editingPost = some p) :
    (handleSubmit values (Except.ok r) s).2 =
      [⟨.success, "Post Updated",
        "Your post has been successfully updated (simulated)"⟩] ∧
    (∃ a b, "Your post has been successfully updated (simulated)" =
      a ++ "simulated" ++ b) ∧
    (handleSubmit values (Except.error (ApiError.axiosResponse 500)) s).2 =
      [⟨.success, "Post Updated",
        "Update simulated successfully (JSONPlaceholder API)"⟩] ∧
    (∃ a b, "Update simulated successfully (JSONPlaceholder API)" =
      a ++ "simulated" ++ b) ∧
    (handleDelete k (Except.error (ApiError.axiosResponse 404)) s).2 =
      (handleDelete k (Except.ok ()) s).2 ∧
    (handleDelete k (Except.error (ApiError.axiosResponse 500)) s).2 =
      (handleDelete k (Except.ok ()) s).2 ∧
    (handleDelete k (Except.ok ()) s).2 =
      [⟨.success, "Post Deleted",
        "The post has been successfully deleted (simulated)"⟩] ∧
    (∃ a b, "The post has been successfully deleted (simulated)" =
      a ++ "simulated" ++ b) := by
  refine ⟨?_, ⟨"Your post has been successfully updated (", ")", by decide⟩, ?_,
          ⟨"Update ", " successfully (JSONPlaceholder API)", by decide⟩,
          rfl, rfl, rfl,
          ⟨"The post has been successfully deleted (", ")", by decide⟩⟩
  · simp [handleSubmit, he]
  · simp [handleSubmit, he, updateSimulated]

/-- Witness for the amended C10 theorem at a concrete editing state. -/
theorem success_wording_simulated_witness :
    (handleSubmit ⟨"n", "m"⟩ (Except.ok ⟨7, 1, "n", "m"⟩)
        ⟨[⟨7, 1, "o", "o"⟩], true, true, some ⟨7, 1, "o", "o"⟩,
         ⟨"n", "m"⟩⟩).2 =
      [⟨.success, "Post Updated",
        "Your post has been successfully updated (simulated)"⟩] ∧
    (handleDelete 7 (Except.ok ())
        ⟨[⟨7, 1, "o", "o"⟩], true, true, some ⟨7, 1, "o", "o"⟩,
         ⟨"n", "m"⟩⟩).2 =
      [⟨.success, "Post Deleted",
        "The post has been successfully deleted (simulated)"⟩] := by
  have h := success_wording_simulated
    ⟨[⟨7, 1, "o", "o"⟩], true, true, some ⟨7, 1, "o", "o"⟩, ⟨"n", "m"⟩⟩
    ⟨7, 1, "o", "o"⟩ ⟨"n", "m"⟩ ⟨7, 1, "n", "m"⟩ 7 rfl
  exact ⟨h.1, h.2.2.2.2.2.2.1⟩

end Dinamo
